import Mathlib

/-!
Shallow embedding of the Task-App repository's ownership-scoped task CRUD:
the Mongoose `Task` model and the four Express controller handlers in
`backend/controllers/taskController.js`, plus the client-side `MockBackend`,
`taskService` and Dashboard handlers in `src/App.jsx`.

Conventions: MongoDB ObjectIds and user ids are modelled as `String`
(the controller compares `task.user.toString() !== req.user.id`, a string
comparison); `req.user` is `Option String` holding the authenticated user's
id; timestamps are a `Nat` clock passed in as `now`.  A handler returns its
HTTP outcome together with the store state after the request.
-/

namespace TaskApp

/-- The status enumeration declared in the Mongoose task schema:
`enum: ['todo', 'in-progress', 'done']`. -/
def statusEnum : List String := ["todo", "in-progress", "done"]

/-- A persisted task document: `user` (the owner), `title`, `status` from the
schema, `createdAt`/`updatedAt` from `timestamps: true`, and the MongoDB `_id`. -/
structure Task where
  id : String
  user : String
  title : String
  status : String
  createdAt : Nat
  updatedAt : Nat
deriving DecidableEq, Repr

/-- The MongoDB task collection.  `nextId` generates fresh `_id` values
(MongoDB ObjectIds are unique per document). -/
structure TaskStore where
  tasks : List Task
  nextId : Nat
deriving DecidableEq, Repr

/-- `Task.findById(id)`: the document whose `_id` equals `taskId`, if any
(`_id` carries a unique index, so at most one document matches). -/
def TaskStore.findById (s : TaskStore) (taskId : String) : Option Task :=
  s.tasks.find? (fun t => t.id = taskId)

/-- `task.deleteOne()`: removes the document with `_id = taskId`.  `_id` is
unique, so filtering out every match removes exactly that document. -/
def TaskStore.removeById (s : TaskStore) (taskId : String) : TaskStore :=
  { s with tasks := s.tasks.filter (fun t => t.id ≠ taskId) }

/-- Replaces the document with `_id = taskId` by `t'` (the write performed by
`findByIdAndUpdate`); `_id` is unique, so exactly one document is replaced. -/
def TaskStore.replaceById (s : TaskStore) (taskId : String) (t' : Task) : TaskStore :=
  { s with tasks := s.tasks.map (fun t => if t.id = taskId then t' else t) }

/-- The recognized schema fields of an update request body.  Mongoose strict
mode (the default) silently drops any field of `req.body` that is not in the
schema, so only `user`, `title` and `status` can reach the document. -/
structure UpdateBody where
  user : Option String
  title : Option String
  status : Option String
deriving DecidableEq, Repr

/-- Schema validation run by `Task.create`: `title` is `required` (for a
`String` path this rejects the empty string) and `status` must be a member of
the enumeration.  `findByIdAndUpdate` does NOT run these validators
(`runValidators` defaults to `false` and the controller never sets it). -/
def taskCreateValid (title status : String) : Bool :=
  title ≠ "" && statusEnum.contains status

/-- Outcome of `getTasks` (GET /api/tasks). -/
inductive ListResult where
  | success (tasks : List Task)
  | internalError
deriving DecidableEq, Repr

/-- Outcome of `createTask` (POST /api/tasks): 200, 400 or 500. -/
inductive CreateResult where
  | success (t : Task)
  | validationError
  | internalError
deriving DecidableEq, Repr

/-- Outcome of `updateTask` (PUT /api/tasks/:id): 200, 404, 401 or 500. -/
inductive UpdateResult where
  | success (t : Task)
  | notFound
  | unauthorized
  | internalError
deriving DecidableEq, Repr

/-- Outcome of `deleteTask` (DELETE /api/tasks/:id): 200 (echoing the deleted
id), 404, 401 or 500. -/
inductive DeleteResult where
  | success (id : String)
  | notFound
  | unauthorized
  | internalError
deriving DecidableEq, Repr

/-- `getTasks`: `Task.find({ user: req.user.id })`.  When `req.user` is absent
the access `req.user.id` throws inside the `try` block and the catch answers
500, so the handler reports an internal error, not Unauthorized. -/
def getTasks (store : TaskStore) (reqUser : Option String) : ListResult × TaskStore :=
  match reqUser with
  | none => (ListResult.internalError, store)
  | some uid => (ListResult.success (store.tasks.filter (fun t => t.user = uid)), store)

/-- `createTask`: rejects a falsy `req.body.title` (missing or the empty
string) with 400 before anything else; then `Task.create({title, status:
'todo', user: req.user.id})` inside `try`.  An absent `req.user` throws there
(500), and a `Task.create` validation failure is also caught as 500. -/
def createTask (store : TaskStore) (reqUser : Option String) (bodyTitle : Option String)
    (now : Nat) : CreateResult × TaskStore :=
  match bodyTitle with
  | none => (CreateResult.validationError, store)
  | some tl =>
    if tl = "" then (CreateResult.validationError, store)
    else
      match reqUser with
      | none => (CreateResult.internalError, store)
      | some uid =>
        if taskCreateValid tl "todo" then
          let task : Task :=
            { id := toString store.nextId, user := uid, title := tl, status := "todo",
              createdAt := now, updatedAt := now }
          (CreateResult.success task, { tasks := store.tasks ++ [task], nextId := store.nextId + 1 })
        else (CreateResult.internalError, store)

/-- The document write of `Task.findByIdAndUpdate(req.params.id, req.body,
{new: true})`: every recognized field present in the body is applied as a
`$set` — including `user` — with NO validator run (`runValidators` is left at
its default `false`), and `timestamps: true` refreshes `updatedAt`. -/
def applyUpdateBody (t : Task) (b : UpdateBody) (now : Nat) : Task :=
  { id := t.id
    user := b.user.getD t.user
    title := b.title.getD t.title
    status := b.status.getD t.status
    createdAt := t.createdAt
    updatedAt := now }

/-- `updateTask`: `findById` (404 when absent), then `!req.user` (401), then
the ownership comparison `task.user.toString() !== req.user.id` (401), then
`findByIdAndUpdate(req.params.id, req.body, {new: true})` answered 200. -/
def updateTask (store : TaskStore) (reqUser : Option String) (taskId : String)
    (body : UpdateBody) (now : Nat) : UpdateResult × TaskStore :=
  match store.findById taskId with
  | none => (UpdateResult.notFound, store)
  | some task =>
    match reqUser with
    | none => (UpdateResult.unauthorized, store)
    | some uid =>
      if task.user ≠ uid then (UpdateResult.unauthorized, store)
      else
        let updated := applyUpdateBody task body now
        (UpdateResult.success updated, store.replaceById taskId updated)

/-- `deleteTask`: the same lookup/guard sequence as `updateTask`, then
`task.deleteOne()` and a 200 response carrying `{ id: req.params.id }`. -/
def deleteTask (store : TaskStore) (reqUser : Option String) (taskId : String) :
    DeleteResult × TaskStore :=
  match store.findById taskId with
  | none => (DeleteResult.notFound, store)
  | some task =>
    match reqUser with
    | none => (DeleteResult.unauthorized, store)
    | some uid =>
      if task.user ≠ uid then (DeleteResult.unauthorized, store)
      else (DeleteResult.success taskId, store.removeById taskId)

/-!
Client side (`src/App.jsx`): the `MockBackend` over the `mock_tasks`
localStorage list, the outcome signals both service implementations expose to
the UI, and the Dashboard's task handlers.
-/

/-- A task as the client sees it: the `_id`, `title` and `status` fields are
the only ones `App.jsx` reads (`mid` stands for `_id`). -/
structure MockTask where
  mid : String
  title : String
  status : String
deriving DecidableEq, Repr

/-- The demo data `MockBackend.fetchTasks` seeds when `mock_tasks` is empty. -/
def mockSeed : List MockTask :=
  [⟨"1", "Start learning Full Stack Development", "in-progress"⟩,
   ⟨"2", "Build the Frontend", "done"⟩,
   ⟨"3", "Setup MongoDB Database", "todo"⟩]

/-- `MockBackend.fetchTasks`: returns the stored list, except that an empty
store is first seeded with three demo tasks (returned value, new store). -/
def mockFetchTasks (ls : List MockTask) : List MockTask × List MockTask :=
  if ls = [] then (mockSeed, mockSeed) else (ls, ls)

/-- `MockBackend.createTask({title})`: pushes `{...task, _id:
Date.now().toString(), status: 'todo'}` with no validation of `title` at all
(`newId` stands for `Date.now().toString()`). -/
def mockCreateTask (ls : List MockTask) (title newId : String) : MockTask × List MockTask :=
  let t : MockTask := ⟨newId, title, "todo"⟩
  (t, ls ++ [t])

/-- `MockBackend.updateTask(id, {status})`: replaces the task found by
`findIndex(t => t._id === id)` with `{...t, status}` and returns it; throws
`'Task not found'` when no task has that `_id` (ids are unique: they come from
`Date.now()` or the seed). -/
def mockUpdateTask (ls : List MockTask) (taskId newStatus : String) :
    Except String (MockTask × List MockTask) :=
  match ls.find? (fun t => t.mid = taskId) with
  | none => Except.error "Task not found"
  | some t =>
    let t' : MockTask := { t with status := newStatus }
    Except.ok (t', ls.map (fun x => if x.mid = taskId then t' else x))

/-- `MockBackend.deleteTask(id)`: filters the id out and returns
`{success: true}` unconditionally — it never reports a missing id. -/
def mockDeleteTask (ls : List MockTask) (taskId : String) : List MockTask :=
  ls.filter (fun t => t.mid ≠ taskId)

/-- The failure/success signal a `taskService` operation surfaces to the
caller, abstracting over the two implementations (HTTP status codes on the
real path, thrown errors on the mock path). -/
inductive OpSignal where
  | ok
  | validationError
  | notFound
  | unauthorized
  | internalError
deriving DecidableEq, Repr

/-- Signal of the mock `taskService.delete`: `MockBackend.deleteTask` always
resolves with `{success: true}`, whatever the store and id. -/
def mockDeleteSignal (ls : List MockTask) (taskId : String) : OpSignal :=
  match mockDeleteTask ls taskId with
  | _ => OpSignal.ok

/-- Signal of the mock `taskService.update`. -/
def mockUpdateSignal (ls : List MockTask) (taskId newStatus : String) : OpSignal :=
  match mockUpdateTask ls taskId newStatus with
  | Except.ok _ => OpSignal.ok
  | Except.error _ => OpSignal.notFound

/-- Signal of the real `taskService.delete` (the backend's HTTP outcome as
axios reports it). -/
def DeleteResult.signal : DeleteResult → OpSignal
  | DeleteResult.success _ => OpSignal.ok
  | DeleteResult.notFound => OpSignal.notFound
  | DeleteResult.unauthorized => OpSignal.unauthorized
  | DeleteResult.internalError => OpSignal.internalError

/-- Signal of the real `taskService.update`. -/
def UpdateResult.signal : UpdateResult → OpSignal
  | UpdateResult.success _ => OpSignal.ok
  | UpdateResult.notFound => OpSignal.notFound
  | UpdateResult.unauthorized => OpSignal.unauthorized
  | UpdateResult.internalError => OpSignal.internalError

/-- Signal of the real `taskService.create`. -/
def CreateResult.signal : CreateResult → OpSignal
  | CreateResult.success _ => OpSignal.ok
  | CreateResult.validationError => OpSignal.validationError
  | CreateResult.internalError => OpSignal.internalError

/-- C7's claim, formalised: on corresponding stores (same client-visible
content), the mock and the server-backed `taskService.delete` produce the same
signal for the same id. -/
def deleteSignalsAgree (ls : List MockTask) (store : TaskStore) (uid taskId : String) : Prop :=
  mockDeleteSignal ls taskId = ((deleteTask store (some uid) taskId).1).signal

/-- The Dashboard's task state after a handler ran, together with what the
handler surfaced: `uiMessage` is what gets rendered to the user (the Dashboard
keeps no error state, so its handlers never set one), `consoleLog` is what
went to `console.error`. -/
structure ClientState where
  tasks : List MockTask
  uiMessage : Option String
  consoleLog : Option String
deriving DecidableEq, Repr

/-- `handleUpdateStatus`: on success `setTasks(tasks.map(t => t._id === id ?
updated : t))`; on failure the `catch` block only runs `console.error(err)` —
`setTasks` is not called and nothing is rendered to the user. -/
def handleUpdateStatus (tasks : List MockTask) (taskId : String)
    (svcResult : Except String MockTask) : ClientState :=
  match svcResult with
  | Except.ok updated => ⟨tasks.map (fun t => if t.mid = taskId then updated else t), none, none⟩
  | Except.error e => ⟨tasks, none, some e⟩

/-- `handleDelete`: on success `setTasks(tasks.filter(t => t._id !== id))`; on
failure only `console.error(err)`, state untouched, nothing rendered. -/
def handleDelete (tasks : List MockTask) (taskId : String)
    (svcResult : Except String Unit) : ClientState :=
  match svcResult with
  | Except.ok _ => ⟨tasks.filter (fun t => t.mid ≠ taskId), none, none⟩
  | Except.error e => ⟨tasks, none, some e⟩

/-- C8's claim about the failure path, formalised: a failing status update is
surfaced as a user-visible message. -/
def failureSurfacedVisibly (tasks : List MockTask) (taskId msg : String) : Prop :=
  (handleUpdateStatus tasks taskId (Except.error msg)).uiMessage.isSome

/-- A concrete store used to instantiate the theorems: one task, id "1",
owned by user "u2". -/
def demoStore : TaskStore :=
  ⟨[⟨"1", "u2", "Write spec", "todo", 0, 0⟩], 2⟩

/-!
Helper lemmas, shared by several results below.
-/

/-- `findById` of the id of a member task returns that task, given the `_id`
uniqueness MongoDB enforces. -/
theorem findById_eq_of_mem (store : TaskStore) (t : Task)
    (hmem : t ∈ store.tasks) (hnodup : (store.tasks.map Task.id).Nodup) :
    store.findById t.id = some t := by
  unfold TaskStore.findById
  have hsome : (store.tasks.find? (fun x => x.id = t.id)).isSome := by
    rw [List.find?_isSome]
    exact ⟨t, hmem, by simp⟩
  obtain ⟨t', ht'⟩ := Option.isSome_iff_exists.mp hsome
  have hpred := List.find?_some ht'
  have hmem' := List.mem_of_find?_eq_some ht'
  have hid : t'.id = t.id := by simpa using hpred
  have heq : t' = t := List.inj_on_of_nodup_map hnodup hmem' hmem hid
  rw [ht', heq]

/-- After `removeById`, no document with the removed id remains. -/
theorem findById_removeById (store : TaskStore) (taskId : String) :
    (store.removeById taskId).findById taskId = none := by
  simp only [TaskStore.removeById, TaskStore.findById]
  rw [List.find?_eq_none]
  intro x hx
  simp only [List.mem_filter] at hx
  simpa using hx.2

/-- C1: Ownership isolation.  For an acting user `u1` and a task `t` owned by
a different user, `getTasks` never lists `t`, and both `updateTask` and
`deleteTask` on `t.id` answer 401 Unauthorized without touching the store. -/
theorem ownership_isolation (store : TaskStore) (u1 : String) (t : Task)
    (body : UpdateBody) (now : Nat)
    (hmem : t ∈ store.tasks) (hne : t.user ≠ u1)
    (hnodup : (store.tasks.map Task.id).Nodup) :
    (∀ ts, (getTasks store (some u1)).1 = ListResult.success ts → t ∉ ts) ∧
    updateTask store (some u1) t.id body now = (UpdateResult.unauthorized, store) ∧
    deleteTask store (some u1) t.id = (DeleteResult.unauthorized, store) := by
  have hfind := findById_eq_of_mem store t hmem hnodup
  refine ⟨?_, ?_, ?_⟩
  · intro ts hts
    simp only [getTasks] at hts
    cases hts
    intro hmemf
    have := (List.mem_filter.mp hmemf).2
    exact hne (by simpa using this)
  · simp only [updateTask, hfind]
    rw [if_pos hne]
  · simp only [deleteTask, hfind]
    rw [if_pos hne]

/-- Witness for C1 at a concrete store: user "u1" acting on the task of
user "u2". -/
theorem ownership_isolation_witness :
    updateTask demoStore (some "u1") "1" ⟨some "u1", none, some "done"⟩ 5
      = (UpdateResult.unauthorized, demoStore) ∧
    deleteTask demoStore (some "u1") "1" = (DeleteResult.unauthorized, demoStore) := by
  have h := ownership_isolation demoStore "u1" ⟨"1", "u2", "Write spec", "todo", 0, 0⟩
    ⟨some "u1", none, some "done"⟩ 5 (by decide) (by decide) (by decide)
  exact ⟨h.2.1, h.2.2⟩

/-- C2, failing input evaluated: the owner updates task "1" with `{status:
"blocked"}`; since `findByIdAndUpdate` runs no validators, the handler answers
200 and the store now holds a status outside the declared enumeration —
contradicting the claim that such an update fails with ValidationError and
persists nothing. -/
theorem update_persists_invalid_status :
    (updateTask demoStore (some "u2") "1" ⟨none, none, some "blocked"⟩ 5).1
      = UpdateResult.success ⟨"1", "u2", "Write spec", "blocked", 0, 5⟩ ∧
    statusEnum.contains "blocked" = false ∧
    ((updateTask demoStore (some "u2") "1" ⟨none, none, some "blocked"⟩ 5).2).findById "1"
      = some ⟨"1", "u2", "Write spec", "blocked", 0, 5⟩ := by decide

/-- C3, failing input evaluated: the owner "u2" updates task "1" with a body
containing `{user: "u9"}`; `findByIdAndUpdate(req.params.id, req.body)`
applies the recognized `user` field, so the persisted owner becomes "u9" —
contradicting the claim that the owner is never reassigned. -/
theorem update_reassigns_owner :
    (updateTask demoStore (some "u2") "1" ⟨some "u9", none, none⟩ 5).1
      = UpdateResult.success ⟨"1", "u9", "Write spec", "todo", 0, 5⟩ ∧
    ((updateTask demoStore (some "u2") "1" ⟨some "u9", none, none⟩ 5).2).findById "1"
      = some ⟨"1", "u9", "Write spec", "todo", 0, 5⟩ := by decide

/-- C4, counterexample: `createTask` with the whitespace-only title " " passes
the falsy check `!req.body.title` and the `required` validator, so a task
whose title is whitespace-only IS persisted — refuting "no operation ever
persists a task whose title is empty or whitespace-only". -/
theorem whitespace_title_persisted :
    (createTask ⟨[], 0⟩ (some "u1") (some " ") 7).1
      = CreateResult.success ⟨"0", "u1", " ", "todo", 7, 7⟩ ∧
    ((createTask ⟨[], 0⟩ (some "u1") (some " ") 7).2).tasks
      = [⟨"0", "u1", " ", "todo", 7, 7⟩] := by decide

/-- C4, amended: create with a missing or empty title answers ValidationError
with the store untouched, and a successful create persists exactly the given,
necessarily non-empty, title (whitespace-only titles are not rejected). -/
theorem create_title_validation (store : TaskStore) (u : Option String) (now : Nat) :
    createTask store u none now = (CreateResult.validationError, store) ∧
    createTask store u (some "") now = (CreateResult.validationError, store) ∧
    (∀ uid tl task store2,
       createTask store (some uid) (some tl) now = (CreateResult.success task, store2) →
       task.title = tl ∧ task.title ≠ "") := by
  refine ⟨rfl, by simp [createTask], ?_⟩
  intro uid tl task store2 h
  simp only [createTask] at h
  by_cases htl : tl = ""
  · rw [if_pos htl] at h
    cases h
  · rw [if_neg htl] at h
    have hvalid : taskCreateValid tl "todo" = true := by
      simp [taskCreateValid, statusEnum, htl]
    rw [if_pos hvalid] at h
    obtain ⟨h1, -⟩ := Prod.mk.injEq .. ▸ h
    cases h1
    exact ⟨rfl, htl⟩

/-- Witness for C4's amended statement at concrete inputs. -/
theorem create_title_validation_witness :
    createTask demoStore (some "u1") none 3 = (CreateResult.validationError, demoStore) ∧
    ((⟨"2", "u1", "Buy milk", "todo", 3, 3⟩ : Task).title = "Buy milk" ∧
     (⟨"2", "u1", "Buy milk", "todo", 3, 3⟩ : Task).title ≠ "") := by
  refine ⟨(create_title_validation demoStore (some "u1") 3).1, ?_⟩
  exact (create_title_validation demoStore (some "u1") 3).2.2 "u1" "Buy milk"
    ⟨"2", "u1", "Buy milk", "todo", 3, 3⟩
    ⟨[⟨"1", "u2", "Write spec", "todo", 0, 0⟩, ⟨"2", "u1", "Buy milk", "todo", 3, 3⟩], 3⟩
    (by decide)

/-- C5: update and delete on an id with no task answer 404 NotFound with the
store untouched, whatever the acting identity (existence is checked before the
authorization guard); and once a delete succeeds, deleting the same id again
answers NotFound with the store again untouched — so every subsequent attempt
does too. -/
theorem missing_id_not_found (store : TaskStore) (u u0 : Option String) (taskId : String)
    (body : UpdateBody) (now : Nat) :
    (store.findById taskId = none →
       updateTask store u taskId body now = (UpdateResult.notFound, store) ∧
       deleteTask store u taskId = (DeleteResult.notFound, store)) ∧
    (∀ store', deleteTask store u0 taskId = (DeleteResult.success taskId, store') →
       deleteTask store' u taskId = (DeleteResult.notFound, store')) := by
  constructor
  · intro habsent
    constructor
    · simp only [updateTask, habsent]
    · simp only [deleteTask, habsent]
  · intro store' h
    have hshape : store' = store.removeById taskId := by
      cases hf : store.findById taskId with
      | none => simp [deleteTask, hf] at h
      | some task =>
        cases u0 with
        | none => simp [deleteTask, hf] at h
        | some uid =>
          simp only [deleteTask, hf] at h
          by_cases hown : task.user ≠ uid
          · rw [if_pos hown] at h
            exact absurd (congrArg Prod.fst h) (by simp)
          · rw [if_neg hown] at h
            exact (Prod.mk.injEq .. ▸ h).2.symm
    have habs : store'.findById taskId = none := by
      rw [hshape]; exact findById_removeById store taskId
    simp only [deleteTask, habs]

/-- Witness for C5: a missing id answers NotFound, and re-deleting the id
just deleted answers NotFound as well. -/
theorem missing_id_not_found_witness :
    (updateTask demoStore none "99" ⟨none, none, none⟩ 0 = (UpdateResult.notFound, demoStore) ∧
     deleteTask demoStore none "99" = (DeleteResult.notFound, demoStore)) ∧
    deleteTask (⟨[], 2⟩ : TaskStore) (some "u2") "1" = (DeleteResult.notFound, ⟨[], 2⟩) := by
  refine ⟨(missing_id_not_found demoStore none (some "u2") "99" ⟨none, none, none⟩ 0).1
    (by decide), ?_⟩
  exact (missing_id_not_found demoStore (some "u2") (some "u2") "1" ⟨none, none, none⟩ 0).2
    ⟨[], 2⟩ (by decide)

/-- C6: a successful create inserts a task owned by the acting user with
status "todo" and the given title, and — starting from a store with no tasks
of that user — the immediately following list returns exactly that one
task. -/
theorem create_roundtrip (store : TaskStore) (u tl : String) (now : Nat)
    (htl : tl ≠ "") (hempty : store.tasks.filter (fun t => t.user = u) = []) :
    ∃ task store2,
      createTask store (some u) (some tl) now = (CreateResult.success task, store2) ∧
      task.user = u ∧ task.status = "todo" ∧ task.title = tl ∧
      (getTasks store2 (some u)).1 = ListResult.success [task] := by
  have hvalid : taskCreateValid tl "todo" = true := by
    simp [taskCreateValid, statusEnum, htl]
  refine ⟨⟨toString store.nextId, u, tl, "todo", now, now⟩,
    ⟨store.tasks ++ [⟨toString store.nextId, u, tl, "todo", now, now⟩], store.nextId + 1⟩,
    ?_, rfl, rfl, rfl, ?_⟩
  · simp only [createTask, if_neg htl, if_pos hvalid]
  · simp only [getTasks, List.filter_append, hempty]
    simp

/-- Witness for C6: `create(U, "Buy milk")` then `list(U)` on an empty store. -/
theorem create_roundtrip_witness :
    ∃ task store2,
      createTask ⟨[], 0⟩ (some "U") (some "Buy milk") 1 = (CreateResult.success task, store2) ∧
      task.user = "U" ∧ task.status = "todo" ∧ task.title = "Buy milk" ∧
      (getTasks store2 (some "U")).1 = ListResult.success [task] :=
  create_roundtrip ⟨[], 0⟩ "U" "Buy milk" 1 (by decide) (by decide)

/-- C7, counterexample: on the same (empty) store contents, deleting a missing
id "42" resolves with success in the `MockBackend` but answers 404 NotFound in
the server-backed service — the two implementations do not produce the same
failure signals. -/
theorem mock_real_delete_disagree :
    mockDeleteSignal [] "42" = OpSignal.ok ∧
    ((deleteTask ⟨[], 0⟩ (some "u1") "42").1).signal = OpSignal.notFound ∧
    ¬ deleteSignalsAgree [] ⟨[], 0⟩ "u1" "42" := by
  refine ⟨rfl, rfl, ?_⟩
  unfold deleteSignalsAgree
  decide

/-- C7, amended: the two implementations agree on update (success shape and
NotFound for a missing id) but differ elsewhere — the mock's delete never
fails where the real one answers NotFound, the mock's create accepts the empty
title the real one rejects with ValidationError, and the mock's list seeds
three demo tasks where the real one returns the empty sequence. -/
theorem mock_real_partial_agreement :
    (mockUpdateTask [] "1" "done" = Except.error "Task not found" ∧
     (updateTask ⟨[], 0⟩ (some "u1") "1" ⟨none, none, some "done"⟩ 0).1
       = UpdateResult.notFound ∧
     mockUpdateSignal [] "1" "done"
       = ((updateTask ⟨[], 0⟩ (some "u1") "1" ⟨none, none, some "done"⟩ 0).1).signal) ∧
    (mockDeleteSignal [] "42" = OpSignal.ok ∧
     ((deleteTask ⟨[], 0⟩ (some "u1") "42").1).signal = OpSignal.notFound) ∧
    ((mockCreateTask [] "" "7").2 = [⟨"7", "", "todo"⟩] ∧
     ((createTask ⟨[], 0⟩ (some "u1") (some "") 0).1).signal = OpSignal.validationError) ∧
    ((mockFetchTasks []).1 = mockSeed ∧ mockSeed.length = 3 ∧
     (getTasks ⟨[], 0⟩ (some "u1")).1 = ListResult.success []) :=
  ⟨⟨rfl, rfl, rfl⟩, ⟨rfl, rfl⟩, ⟨rfl, rfl⟩, rfl, rfl, rfl⟩

/-- C8, counterexample: a failing status update leaves no user-visible
message — the Dashboard handler only logs to the console — refuting "the
failure is surfaced as a user-visible message". -/
theorem update_failure_not_surfaced :
    ¬ failureSurfacedVisibly [⟨"1", "t", "todo"⟩] "1" "Request failed with status code 500" := by
  unfold failureSurfacedVisibly
  decide

/-- C8, amended: every failing update or delete leaves the client's local task
state completely unchanged, with the failure logged to the console and no
user-visible message rendered. -/
theorem failure_leaves_state_unchanged (tasks : List MockTask) (taskId e : String) :
    handleUpdateStatus tasks taskId (Except.error e) = ⟨tasks, none, some e⟩ ∧
    handleDelete tasks taskId (Except.error e) = ⟨tasks, none, some e⟩ :=
  ⟨rfl, rfl⟩

/-- C9: deleting an owned task answers 200 with the deleted identifier and
hard-removes the task — a subsequent lookup of the id finds nothing and the
task is gone from the store. -/
theorem delete_postcondition (store : TaskStore) (u : String) (t : Task)
    (hmem : t ∈ store.tasks) (hown : t.user = u)
    (hnodup : (store.tasks.map Task.id).Nodup) :
    deleteTask store (some u) t.id = (DeleteResult.success t.id, store.removeById t.id) ∧
    (store.removeById t.id).findById t.id = none ∧
    t ∉ (store.removeById t.id).tasks := by
  have hfind := findById_eq_of_mem store t hmem hnodup
  refine ⟨?_, findById_removeById store t.id, ?_⟩
  · simp only [deleteTask, hfind, hown]
    simp
  · simp only [TaskStore.removeById]
    intro hmemf
    have := (List.mem_filter.mp hmemf).2
    simp at this

/-- Witness for C9: user "u2" deletes their own task "1". -/
theorem delete_postcondition_witness :
    deleteTask demoStore (some "u2") "1" = (DeleteResult.success "1", demoStore.removeById "1") ∧
    (demoStore.removeById "1").findById "1" = none := by
  have h := delete_postcondition demoStore "u2" ⟨"1", "u2", "Write spec", "todo", 0, 0⟩
    (by decide) (by decide) (by decide)
  exact ⟨h.1, h.2.1⟩

/-- C10: with no authenticated identity, list answers 500 (not Unauthorized)
since `req.user.id` throws inside the `try`; create does the same but only
after the title check (a missing title still answers 400); only update and
delete — once the task exists — map the absent identity to 401. -/
theorem absent_identity_paths (store : TaskStore) (now : Nat) :
    (getTasks store none).1 = ListResult.internalError ∧
    (∀ tl : String, tl ≠ "" →
       (createTask store none (some tl) now).1 = CreateResult.internalError) ∧
    (createTask store none none now).1 = CreateResult.validationError ∧
    (∀ taskId body, (store.findById taskId).isSome →
       (updateTask store none taskId body now).1 = UpdateResult.unauthorized) ∧
    (∀ taskId, (store.findById taskId).isSome →
       (deleteTask store none taskId).1 = DeleteResult.unauthorized) := by
  refine ⟨rfl, ?_, rfl, ?_, ?_⟩
  · intro tl htl
    simp only [createTask, if_neg htl]
  · intro taskId body hfound
    obtain ⟨task, hf⟩ := Option.isSome_iff_exists.mp hfound
    simp only [updateTask, hf]
  · intro taskId hfound
    obtain ⟨task, hf⟩ := Option.isSome_iff_exists.mp hfound
    simp only [deleteTask, hf]

/-- Witness for C10 at the concrete store. -/
theorem absent_identity_paths_witness :
    (getTasks demoStore none).1 = ListResult.internalError ∧
    (createTask demoStore none (some "x") 0).1 = CreateResult.internalError ∧
    (updateTask demoStore none "1" ⟨none, none, none⟩ 0).1 = UpdateResult.unauthorized ∧
    (deleteTask demoStore none "1").1 = DeleteResult.unauthorized :=
  ⟨(absent_identity_paths demoStore 0).1,
   (absent_identity_paths demoStore 0).2.1 "x" (by decide),
   (absent_identity_paths demoStore 0).2.2.2.1 "1" ⟨none, none, none⟩ (by decide),
   (absent_identity_paths demoStore 0).2.2.2.2 "1" (by decide)⟩

end TaskApp
